import Mathlib

/-!
Verification of the tenant-aware HTTP client of the `my-rn-template`
repository.

This file shallowly embeds the two components the specification centres on:

* the tenant configuration loader (`src/core/tenant/tenant.config.ts`,
  class `TenantLoader` and the `tenantConfigs` table), and
* the authenticated request client (`src/core/api/api-client.ts`,
  class `ApiClient` with its axios request/response interceptors).

JavaScript specifics are modelled explicitly: `x || d` on strings falls back
on the empty string (`jsOrStr`), `if (token)` treats the empty string as
absent, and object-field access that can miss is an `Option`.  Mutable class
fields become explicit state threaded through the functions; the network is an
oracle supplying one outcome per transport attempt.  `Logger` calls only log
and have no counterpart here.
-/

namespace RnTemplate

/-- A JavaScript runtime value as it appears in the tenant feature-flag and
permission tables: booleans, numbers and string lists. -/
inductive JsValue where
  | bool (b : Bool)
  | num (n : Nat)
  | str (s : String)
  | strList (l : List String)
  deriving DecidableEq, Repr

/-- The process environment variables the embedded code reads
(`process.env.EXPO_PUBLIC_API_URL_DEV`, `process.env.EXPO_PUBLIC_TENANT_ID`).
`none` models an unset variable. -/
structure Env where
  apiUrlDev : Option String
  tenantId : Option String
  deriving DecidableEq, Repr

/-- JavaScript `s || d` for an optional string: the empty string is falsy,
so both a missing value and `""` fall back to the default. -/
def jsOrStr (v : Option String) (d : String) : String :=
  match v with
  | some s => if s = "" then d else s
  | none => d

/-- JavaScript truthiness of an optional string (`if (x)`): present and
non-empty. -/
def jsTruthy (v : Option String) : Bool :=
  match v with
  | some s => s ≠ ""
  | none => false

/-! ## Tenant configuration (`src/core/tenant/tenant.config.ts`) -/

/-- Interface `TenantApiConfig` from `tenant.config.ts`. -/
structure TenantApiConfig where
  baseUrl : String
  timeout : Nat
  retryAttempts : Nat
  enableCaching : Bool
  cacheTimeout : Nat
  deriving DecidableEq, Repr

/-- Interface `TenantConfig` from `tenant.config.ts`.  The feature-flag and permission
objects are embedded as key/value lists so that the dynamic string lookup
performed by `TenantLoader.isFeatureEnabled` / `hasPermission` (including its
`?? false` fallback for absent keys) can be modelled faithfully. -/
structure TenantConfig where
  id : String
  name : String
  displayName : String
  api : TenantApiConfig
  featureFlags : List (String × JsValue)
  permissions : List (String × JsValue)
  deriving DecidableEq, Repr

/-- JavaScript object field lookup on an embedded key/value list. -/
def lookupEntry (l : List (String × JsValue)) (k : String) : Option JsValue :=
  (l.find? (fun p => p.1 = k)).map Prod.snd

def defaultFeatureFlags : List (String × JsValue) :=
  [("enablePushNotifications", .bool true),
   ("enableBiometricAuth", .bool true),
   ("enableDarkMode", .bool true),
   ("enableOfflineMode", .bool true),
   ("enableAnalytics", .bool true),
   ("enableChatSupport", .bool true),
   ("enablePaymentGateway", .bool true),
   ("maxFileUploadSize", .num 10485760),
   ("allowedFileTypes", .strList ["image/jpeg", "image/png", "application/pdf"])]

def defaultPermissions : List (String × JsValue) :=
  [("canCreateContent", .bool true),
   ("canDeleteContent", .bool true),
   ("canShareContent", .bool true),
   ("canExportData", .bool true),
   ("canInviteUsers", .bool true),
   ("maxUsers", .num 100)]

/-- The `'default'` entry of `tenantConfigs`.  Its base URL reads
`process.env.EXPO_PUBLIC_API_URL_DEV || 'https://api-dev.example.com'`. -/
def defaultTenant (env : Env) : TenantConfig :=
  { id := "default"
    name := "default"
    displayName := "Default Tenant"
    api := { baseUrl := jsOrStr env.apiUrlDev "https://api-dev.example.com"
             timeout := 30000, retryAttempts := 3
             enableCaching := true, cacheTimeout := 300000 }
    featureFlags := defaultFeatureFlags
    permissions := defaultPermissions }

def tenant1FeatureFlags : List (String × JsValue) :=
  [("enablePushNotifications", .bool true),
   ("enableBiometricAuth", .bool false),
   ("enableDarkMode", .bool true),
   ("enableOfflineMode", .bool false),
   ("enableAnalytics", .bool true),
   ("enableChatSupport", .bool false),
   ("enablePaymentGateway", .bool true),
   ("maxFileUploadSize", .num 5242880),
   ("allowedFileTypes", .strList ["image/jpeg", "image/png"])]

def tenant1Permissions : List (String × JsValue) :=
  [("canCreateContent", .bool true),
   ("canDeleteContent", .bool false),
   ("canShareContent", .bool true),
   ("canExportData", .bool false),
   ("canInviteUsers", .bool false),
   ("maxUsers", .num 50)]

/-- The `'tenant-1'` entry of `tenantConfigs`. -/
def tenant1 : TenantConfig :=
  { id := "tenant-1"
    name := "tenant-1"
    displayName := "Tenant One"
    api := { baseUrl := "https://api-tenant1.example.com"
             timeout := 30000, retryAttempts := 3
             enableCaching := true, cacheTimeout := 300000 }
    featureFlags := tenant1FeatureFlags
    permissions := tenant1Permissions }

def tenant2FeatureFlags : List (String × JsValue) :=
  [("enablePushNotifications", .bool true),
   ("enableBiometricAuth", .bool true),
   ("enableDarkMode", .bool true),
   ("enableOfflineMode", .bool true),
   ("enableAnalytics", .bool true),
   ("enableChatSupport", .bool true),
   ("enablePaymentGateway", .bool false),
   ("maxFileUploadSize", .num 20971520),
   ("allowedFileTypes", .strList ["image/jpeg", "image/png", "application/pdf", "video/mp4"])]

def tenant2Permissions : List (String × JsValue) :=
  [("canCreateContent", .bool true),
   ("canDeleteContent", .bool true),
   ("canShareContent", .bool true),
   ("canExportData", .bool true),
   ("canInviteUsers", .bool true),
   ("maxUsers", .num 500)]

/-- The `'tenant-2'` entry of `tenantConfigs`. -/
def tenant2 : TenantConfig :=
  { id := "tenant-2"
    name := "tenant-2"
    displayName := "Tenant Two"
    api := { baseUrl := "https://api-tenant2.example.com"
             timeout := 30000, retryAttempts := 5
             enableCaching := true, cacheTimeout := 600000 }
    featureFlags := tenant2FeatureFlags
    permissions := tenant2Permissions }

def tenant3FeatureFlags : List (String × JsValue) :=
  [("enablePushNotifications", .bool false),
   ("enableBiometricAuth", .bool false),
   ("enableDarkMode", .bool false),
   ("enableOfflineMode", .bool false),
   ("enableAnalytics", .bool false),
   ("enableChatSupport", .bool false),
   ("enablePaymentGateway", .bool false),
   ("maxFileUploadSize", .num 1048576),
   ("allowedFileTypes", .strList ["image/jpeg"])]

def tenant3Permissions : List (String × JsValue) :=
  [("canCreateContent", .bool false),
   ("canDeleteContent", .bool false),
   ("canShareContent", .bool false),
   ("canExportData", .bool false),
   ("canInviteUsers", .bool false),
   ("maxUsers", .num 10)]

/-- The `'tenant-3'` entry of `tenantConfigs`. -/
def tenant3 : TenantConfig :=
  { id := "tenant-3"
    name := "tenant-3"
    displayName := "Tenant Three"
    api := { baseUrl := "https://api-tenant3.example.com"
             timeout := 20000, retryAttempts := 2
             enableCaching := false, cacheTimeout := 0 }
    featureFlags := tenant3FeatureFlags
    permissions := tenant3Permissions }

/-- The `tenantConfigs` record as a lookup: four entries, every other key
misses (JavaScript index access on the object yields `undefined`). -/
def tenantConfigs (env : Env) (id : String) : Option TenantConfig :=
  if id = "default" then some (defaultTenant env)
  else if id = "tenant-1" then some tenant1
  else if id = "tenant-2" then some tenant2
  else if id = "tenant-3" then some tenant3
  else none

/-- State of `TenantLoader`: its private static field
`currentTenant : TenantConfig | null`. -/
abbrev LoaderState := Option TenantConfig

/-- The shared fallback of `loadTenant` and `getCurrentTenant`:
`tenantConfigs[process.env.EXPO_PUBLIC_TENANT_ID || 'default'] || tenantConfigs.default`. -/
def resolveDefaultTenant (env : Env) : TenantConfig :=
  (tenantConfigs env (jsOrStr env.tenantId "default")).getD (defaultTenant env)

/-- Method `TenantLoader.loadTenant(tenantId?)`: a known id becomes current and is
returned; otherwise the env-configured default id is resolved, falling back
to the hard-coded `default` entry.  Returns the result together with the new
`currentTenant` state.  Total: no path raises. -/
def loadTenant (env : Env) (_st : LoaderState) (tenantId : Option String) :
    TenantConfig × LoaderState :=
  match tenantId with
  | some tid =>
    -- `if (tenantId && tenantConfigs[tenantId])`
    if tid ≠ "" then
      match tenantConfigs env tid with
      | some c => (c, some c)
      | none => (resolveDefaultTenant env, some (resolveDefaultTenant env))
    else (resolveDefaultTenant env, some (resolveDefaultTenant env))
  | none => (resolveDefaultTenant env, some (resolveDefaultTenant env))

/-- Method `TenantLoader.getCurrentTenant()`: lazily resolves the default when no
tenant has been loaded yet, then returns the current descriptor. -/
def getCurrentTenant (env : Env) (st : LoaderState) : TenantConfig × LoaderState :=
  match st with
  | some c => (c, some c)
  | none => (resolveDefaultTenant env, some (resolveDefaultTenant env))

/-- Method `TenantLoader.isFeatureEnabled(feature)`:
`this.getCurrentTenant().featureFlags[feature] ?? false`. -/
def isFeatureEnabled (env : Env) (st : LoaderState) (feature : String) :
    JsValue × LoaderState :=
  let ts := getCurrentTenant env st
  ((lookupEntry ts.1.featureFlags feature).getD (.bool false), ts.2)

/-- Method `TenantLoader.hasPermission(permission)`:
`this.getCurrentTenant().permissions[permission] ?? false`. -/
def hasPermission (env : Env) (st : LoaderState) (permission : String) :
    JsValue × LoaderState :=
  let ts := getCurrentTenant env st
  ((lookupEntry ts.1.permissions permission).getD (.bool false), ts.2)

/-- Module-level helper `getTenantConfig()`: `TenantLoader.getCurrentTenant()`. -/
def getTenantConfig (env : Env) (st : LoaderState) : TenantConfig × LoaderState :=
  getCurrentTenant env st

/-! ## API client (`src/core/api/api-client.ts`)

The axios instance is modelled explicitly.  A call to `this.client(config)`
runs the request interceptor (which decorates the headers), performs one
transport attempt whose outcome is supplied by an oracle list (one entry per
attempt, consumed in order), and runs the response interceptors on the
outcome.  The raw `axios.post` made by `refreshAccessToken` does not go
through these interceptors; its outcome is a separate oracle value. -/

/-- The headers of an outbound request.  `axios.create` fixes
`Content-Type`/`Accept`; the request interceptor fills in `Authorization`
and `X-Tenant-ID`. -/
structure Headers where
  contentType : String
  accept : String
  authorization : Option String
  xTenantId : Option String
  deriving DecidableEq, Repr

/-- The default headers installed by the constructor's `axios.create`. -/
def baseHeaders : Headers :=
  { contentType := "application/json", accept := "application/json"
    authorization := none, xTenantId := none }

/-- An `AxiosError` as the interceptors see it: `message` and optional
`code` on the error itself, and — when a response was received —
`response.status` plus the optional `message`/`errors` fields of
`response.data`.  `respStatus = none` models a transport-level failure with
no response (network error / timeout). -/
structure AxiosErrorModel where
  message : String
  code : Option String
  respStatus : Option Nat
  respMessage : Option String
  respErrors : Option (List String)
  deriving DecidableEq, Repr

/-- The plain `ApiError` object literal built by the response interceptor and
by `handleError` (`{message, code?, status?, errors?}`). -/
structure ApiError where
  message : String
  code : Option String
  status : Option Nat
  errors : Option (List String)
  deriving DecidableEq, Repr

/-- Shape `ApiResponse<T>` as actually constructed by `get/post/put/patch/delete`:
`{ data: response.data, success: true }` (the optional `message`/`errors`
fields are never set there). -/
structure ApiResponse where
  data : JsValue
  success : Bool
  deriving DecidableEq, Repr

/-- The outcome the transport gives one attempt of the main client:
either a resolved response (status, body) or an `AxiosError`. -/
inductive AttemptOutcome where
  | ok (status : Nat) (body : JsValue)
  | err (e : AxiosErrorModel)
  deriving DecidableEq, Repr

/-- The outcome of the raw `axios.post` to `/auth/refresh`:
either a resolved response whose body may carry an `accessToken` field, or a
rejection. -/
inductive RefreshResp where
  | ok (accessTokenField : Option String)
  | err
  deriving DecidableEq, Repr

/-- The `ApiClient` instance: the axios configuration bound at construction
(`baseURL`, `timeout`) and the mutable private token fields. -/
structure ApiClientInst where
  baseURL : String
  timeout : Nat
  accessToken : Option String
  refreshToken : Option String
  deriving DecidableEq, Repr

/-- The `ApiClient` constructor: reads `getTenantConfig()` once and binds
`baseURL`/`timeout` from it; both token fields start `null`. -/
def mkApiClient (env : Env) (st : LoaderState) : ApiClientInst × LoaderState :=
  let ts := getTenantConfig env st
  ({ baseURL := ts.1.api.baseUrl, timeout := ts.1.api.timeout
     accessToken := none, refreshToken := none }, ts.2)

/-- Method `ApiClient.setAccessToken`. -/
def setAccessToken (inst : ApiClientInst) (token : String) : ApiClientInst :=
  { inst with accessToken := some token }

/-- Method `ApiClient.setRefreshToken`. -/
def setRefreshToken (inst : ApiClientInst) (token : String) : ApiClientInst :=
  { inst with refreshToken := some token }

/-- Method `ApiClient.clearTokens`. -/
def clearTokens (inst : ApiClientInst) : ApiClientInst :=
  { inst with accessToken := none, refreshToken := none }

/-- Method `ApiClient.refreshAccessToken`, plus the number of HTTP calls it makes
(0 when no refresh token is held, 1 otherwise).  Faithful to the source, it
has no failure channel: `if (!this.refreshToken) return null`, and the
`axios.post` is wrapped in `try/catch { return null }`; a resolved response
yields `response.data.accessToken || null`.  It never throws/rejects. -/
def refreshAccessToken (inst : ApiClientInst) (refreshResp : RefreshResp) :
    Option String × Nat :=
  if jsTruthy inst.refreshToken then
    match refreshResp with
    | .err => (none, 1)
    | .ok tok => (if jsTruthy tok then tok else none, 1)
  else (none, 0)

/-- The request interceptor: attach `Authorization: Bearer <accessToken>`
when the access token is truthy, and `X-Tenant-ID` from a fresh
`getTenantConfig()` read. -/
def requestInterceptor (env : Env) (inst : ApiClientInst) (st : LoaderState)
    (h : Headers) : Headers × LoaderState :=
  let h1 :=
    match inst.accessToken with
    | some t => if t ≠ "" then { h with authorization := some ("Bearer " ++ t) } else h
    | none => h
  let ts := getTenantConfig env st
  ({ h1 with xTenantId := some ts.1.id }, ts.2)

/-- The `ApiError` object literal the response interceptor rejects with:
`{message: error.message, code: error.code, status: error.response?.status,
errors: error.response?.data?.errors || [error.message]}` (an empty `errors`
array is truthy in JavaScript, so only a missing field falls back). -/
def classifyError (e : AxiosErrorModel) : ApiError :=
  { message := e.message, code := e.code, status := e.respStatus
    errors := some (e.respErrors.getD [e.message]) }

/-- One transport attempt as the oracle/transport layer observes it:
the decorated headers, the request url, the `_retry` marker, and the bound
`baseURL`/`timeout` it is sent with. -/
structure SentAttempt where
  url : String
  headers : Headers
  retryFlag : Bool
  baseURL : String
  timeout : Nat
  deriving DecidableEq, Repr

/-- The full result of driving one logical request through the interceptor
chain: the value the chain resolves/rejects with, the client state and loader
state afterwards, the transport attempts observed, and how many refresh
calls were made. -/
structure RunOut where
  res : Except ApiError (Nat × JsValue)
  inst : ApiClientInst
  st : LoaderState
  attempts : List SentAttempt
  refreshCalls : Nat
  deriving Repr

/-- The default rejection the oracle produces when it runs out of supplied
outcomes (a plain network error; theorems always supply enough outcomes). -/
def exhaustedOutcome : AttemptOutcome :=
  .err { message := "Network Error", code := some "ERR_NETWORK"
         respStatus := none, respMessage := none, respErrors := none }

/-- One pass of `this.client(config)` through the interceptor chain:
request interceptor, transport attempt, response interceptors.  On an error
with `response.status === 401` and `_retry` not yet set, the handler sets
`_retry`, awaits `refreshAccessToken()`, and if a new token came back stores
it, rewrites the request's `Authorization` header, and re-issues the
original request through the same chain (the recursive call, now with
`retryFlag = true`).  Otherwise it falls through and rejects with the
classified `ApiError`.  The source's
`catch (refreshError) { clearTokens(); reject(refreshError) }` branch has no
counterpart here because `refreshAccessToken` returns `null` on every
failure path and never rejects, so that branch is unreachable.

The `fuel` argument only provides structural termination; the `_retry`
marker caps the chain depth at two passes, so with fuel ≥ 2 the
fuel-exhausted branch is unreachable. -/
def runClientFuel : Nat → Env → ApiClientInst → LoaderState → String → Headers →
    Bool → List AttemptOutcome → RefreshResp → RunOut
  | 0, _, inst, st, _, _, _, _, _ =>
    { res := .error (classifyError { message := "fuel exhausted", code := none
                                     respStatus := none, respMessage := none
                                     respErrors := none })
      inst := inst, st := st, attempts := [], refreshCalls := 0 }
  | fuel + 1, env, inst, st, url, h0, retryFlag, outcomes, refreshResp =>
    let hs := requestInterceptor env inst st h0
    let h := hs.1
    let st1 := hs.2
    let att : SentAttempt :=
      { url := url, headers := h, retryFlag := retryFlag
        baseURL := inst.baseURL, timeout := inst.timeout }
    match outcomes.headD exhaustedOutcome with
    | .ok status body =>
      { res := .ok (status, body), inst := inst, st := st1
        attempts := [att], refreshCalls := 0 }
    | .err e =>
      if e.respStatus = some 401 ∧ retryFlag = false then
        -- originalRequest._retry = true; const newToken = await this.refreshAccessToken()
        match refreshAccessToken inst refreshResp with
        | (some newToken, n) =>
          let inst' := setAccessToken inst newToken
          let h' := { h with authorization := some ("Bearer " ++ newToken) }
          let rec2 := runClientFuel fuel env inst' st1 url h' true outcomes.tail refreshResp
          { res := rec2.res, inst := rec2.inst, st := rec2.st
            attempts := att :: rec2.attempts, refreshCalls := n + rec2.refreshCalls }
        | (none, n) =>
          { res := .error (classifyError e), inst := inst, st := st1
            attempts := [att], refreshCalls := n }
      else
        { res := .error (classifyError e), inst := inst, st := st1
          attempts := [att], refreshCalls := 0 }

/-- One call of `this.client(config)`, with enough fuel for the
`_retry`-capped chain. -/
def runClient (env : Env) (inst : ApiClientInst) (st : LoaderState)
    (url : String) (h0 : Headers) (retryFlag : Bool)
    (outcomes : List AttemptOutcome) (refreshResp : RefreshResp) : RunOut :=
  runClientFuel 2 env inst st url h0 retryFlag outcomes refreshResp

/-- What `get/post/put/patch/delete` can catch: in practice always the plain
`ApiError` object the response interceptor rejected with, but
`handleError` is written for arbitrary values, so the other shapes are kept. -/
inductive Caught where
  | apiErr (e : ApiError)
  | axiosErr (e : AxiosErrorModel)
  | jsError (msg : String)
  | other
  deriving DecidableEq, Repr

/-- Method `ApiClient.handleError`: an `AxiosError` is unwrapped into an informative
`ApiError`; an `Error` keeps its message; anything else — including the plain
`ApiError` object literal the interceptor rejects with, which is neither an
`AxiosError` nor an `Error` — becomes `{message: 'Unknown error occurred'}`. -/
def handleError (c : Caught) : ApiError :=
  match c with
  | .axiosErr e =>
    { message := jsOrStr e.respMessage e.message, code := e.code
      status := e.respStatus, errors := some (e.respErrors.getD [e.message]) }
  | .jsError m => { message := m, code := none, status := none, errors := none }
  | _ => { message := "Unknown error occurred", code := none, status := none, errors := none }

/-- The result of a public verb method: either the `ApiResponse` it resolves
with or the `ApiError` it throws, together with the evolved states and the
observed transport trace. -/
structure CallOut where
  res : Except ApiError ApiResponse
  inst : ApiClientInst
  st : LoaderState
  attempts : List SentAttempt
  refreshCalls : Nat
  deriving Repr

/-- The shared body of `get/post/put/patch/delete`:
`try { const r = await this.client.<verb>(url, ...); return {data: r.data,
success: true} } catch (e) { throw this.handleError(e) }`.  The chain's
rejection value is the interceptor's plain `ApiError` object, so the catch
wraps it as `Caught.apiErr`. -/
def runVerb (env : Env) (inst : ApiClientInst) (st : LoaderState) (url : String)
    (outcomes : List AttemptOutcome) (refreshResp : RefreshResp) : CallOut :=
  let out := runClient env inst st url baseHeaders false outcomes refreshResp
  { res :=
      match out.res with
      | .ok (_, body) => .ok { data := body, success := true }
      | .error e => .error (handleError (.apiErr e))
    inst := out.inst, st := out.st
    attempts := out.attempts, refreshCalls := out.refreshCalls }

/-- Method `ApiClient.get` (the request body plays no role in the embedded
pipeline, so all five verbs share `runVerb`; `get` is the representative). -/
def get (env : Env) (inst : ApiClientInst) (st : LoaderState) (url : String)
    (outcomes : List AttemptOutcome) (refreshResp : RefreshResp) : CallOut :=
  runVerb env inst st url outcomes refreshResp

/-! ## Concrete fixtures used by witnesses and counterexample evaluations -/

/-- An environment with neither `EXPO_PUBLIC_API_URL_DEV` nor
`EXPO_PUBLIC_TENANT_ID` set. -/
def envFix : Env := { apiUrlDev := none, tenantId := none }

/-- A client holding the spec scenario's credentials
(`accessToken = "A1"`, `refreshToken = "R1"`), bound to tenant-1's endpoint. -/
def instFix : ApiClientInst :=
  { baseURL := "https://api-tenant1.example.com", timeout := 30000
    accessToken := some "A1", refreshToken := some "R1" }

/-- The same client with no refresh token held. -/
def instNoRefreshFix : ApiClientInst :=
  { baseURL := "https://api-tenant1.example.com", timeout := 30000
    accessToken := some "A1", refreshToken := none }

/-- An axios rejection for an HTTP 401 response. -/
def err401Fix : AxiosErrorModel :=
  { message := "Request failed with status code 401", code := some "ERR_BAD_REQUEST"
    respStatus := some 401, respMessage := none, respErrors := none }

/-- An axios rejection for an HTTP 500 response whose body carries a
message and a structured error list. -/
def err500Fix : AxiosErrorModel :=
  { message := "Request failed with status code 500", code := some "ERR_BAD_RESPONSE"
    respStatus := some 500, respMessage := some "boom"
    respErrors := some ["upstream detail"] }

/-- The nine keys of `TenantFeatureFlags`. -/
def featureFlagKeys : List String :=
  ["enablePushNotifications", "enableBiometricAuth", "enableDarkMode",
   "enableOfflineMode", "enableAnalytics", "enableChatSupport",
   "enablePaymentGateway", "maxFileUploadSize", "allowedFileTypes"]

/-- The six keys of `TenantPermissions`. -/
def permissionKeys : List String :=
  ["canCreateContent", "canDeleteContent", "canShareContent",
   "canExportData", "canInviteUsers", "maxUsers"]

/-- Whether a value is a non-zero number, i.e. a truthy JavaScript number. -/
def isNonzeroNum : JsValue → Bool
  | .num (_ + 1) => true
  | _ => false

/-! ## Helper lemmas -/

/-- Reading the current tenant twice gives the same descriptor and state. -/
theorem getCurrentTenant_idem (env : Env) (st : LoaderState) :
    getCurrentTenant env (getCurrentTenant env st).2 = getCurrentTenant env st := by
  cases st <;> rfl

/-- Every branch of `loadTenant` stores the descriptor it returns. -/
theorem loadTenant_sets_current (env : Env) (st : LoaderState) (tid : Option String) :
    (loadTenant env st tid).2 = some (loadTenant env st tid).1 := by
  cases tid with
  | none => rfl
  | some s =>
    by_cases hs : s = "" <;> simp only [loadTenant, hs]
    · rfl
    · simp only [if_neg, ne_eq, hs, not_false_eq_true, if_true]
      cases tenantConfigs env s <;> rfl

/-- Under the hypotheses "a non-empty refresh token is held" and "the refresh
endpoint responds with a non-empty access token", `refreshAccessToken`
returns that token and makes exactly one HTTP call. -/
theorem refreshAccessToken_ok (inst : ApiClientInst) (rr : RefreshResp) (rt t : String)
    (h1 : inst.refreshToken = some rt) (h2 : rt ≠ "")
    (h3 : rr = RefreshResp.ok (some t)) (h4 : t ≠ "") :
    refreshAccessToken inst rr = (some t, 1) := by
  subst h3
  simp [refreshAccessToken, jsTruthy, h1, h2, h4]

/-! ## Claims about the tenant context resolver -/

/-- C9: calling `getCurrentTenant()` twice with no intervening `loadTenant`
returns the same (value-equal) descriptor and leaves the same state: the
default is resolved lazily on the first access and the second access returns
the stored reference. -/
theorem claim_get_current_tenant_idempotent (env : Env) (st : LoaderState) :
    getCurrentTenant env (getCurrentTenant env st).2 = getCurrentTenant env st ∧
    (getCurrentTenant env (getCurrentTenant env st).2).1 = (getCurrentTenant env st).1 := by
  cases st <;> exact ⟨rfl, rfl⟩

/-- C8: `loadTenant` never raises (it is a total function here, faithful to
the source in which every path returns): a known id becomes current and is
returned; an unknown id — or a call with no id — resolves the default id
from process configuration (`EXPO_PUBLIC_TENANT_ID || 'default'`), and if
that id is also unknown the hard-coded `default` descriptor is used. -/
theorem claim_load_tenant_fallback (env : Env) (st : LoaderState) (tid : String) :
    (∀ c, tenantConfigs env tid = some c → loadTenant env st (some tid) = (c, some c)) ∧
    (tenantConfigs env tid = none →
      loadTenant env st (some tid) =
        (resolveDefaultTenant env, some (resolveDefaultTenant env))) ∧
    loadTenant env st none = (resolveDefaultTenant env, some (resolveDefaultTenant env)) ∧
    (tenantConfigs env (jsOrStr env.tenantId "default") = none →
      resolveDefaultTenant env = defaultTenant env) := by
  refine ⟨?_, ?_, rfl, ?_⟩
  · intro c hc
    have hne : tid ≠ "" := by
      rintro rfl
      simp [tenantConfigs] at hc
    simp [loadTenant, hne, hc]
  · intro hc
    by_cases hs : tid = ""
    · simp [loadTenant, hs]
    · simp [loadTenant, hs, hc]
  · intro hc
    simp [resolveDefaultTenant, hc]

/-- Witness for C8 at the unknown id `"acme"` with a clean environment. -/
theorem claim_load_tenant_fallback_witness :
    tenantConfigs envFix "acme" = none ∧
    loadTenant envFix none (some "acme") =
      (resolveDefaultTenant envFix, some (resolveDefaultTenant envFix)) :=
  ⟨by decide, (claim_load_tenant_fallback envFix none "acme").2.1 (by decide)⟩

/-- C10: for every tenant in `tenantConfigs`, every feature-flag and
permission key is populated, so `isFeatureEnabled` / `hasPermission` return
the stored value verbatim and the `?? false` fallback is never taken; and
`isFeatureEnabled('maxFileUploadSize')` is the tenant's configured number,
truthy for every configured tenant, not a boolean. -/
theorem claim_flags_populated (env : Env) (id : String) (c : TenantConfig)
    (h : tenantConfigs env id = some c) :
    (∀ k ∈ featureFlagKeys,
      lookupEntry c.featureFlags k = some (isFeatureEnabled env (some c) k).1) ∧
    (∀ k ∈ permissionKeys,
      lookupEntry c.permissions k = some (hasPermission env (some c) k).1) ∧
    isNonzeroNum (isFeatureEnabled env (some c) "maxFileUploadSize").1 = true := by
  have hf : ∀ k, (isFeatureEnabled env (some c) k).1 =
      (lookupEntry c.featureFlags k).getD (.bool false) := fun _ => rfl
  have hp : ∀ k, (hasPermission env (some c) k).1 =
      (lookupEntry c.permissions k).getD (.bool false) := fun _ => rfl
  simp only [hf, hp]
  unfold tenantConfigs at h
  have hdf : (defaultTenant env).featureFlags = defaultFeatureFlags := rfl
  have hdp : (defaultTenant env).permissions = defaultPermissions := rfl
  split_ifs at h <;>
    (injection h with h; subst h; try simp only [hdf, hdp]
     exact ⟨by decide, by decide, by decide⟩)

/-- Witness for C10 at `tenant-1`. -/
theorem claim_flags_populated_witness :
    tenantConfigs envFix "tenant-1" = some tenant1 ∧
    isNonzeroNum (isFeatureEnabled envFix (some tenant1) "maxFileUploadSize").1 = true :=
  ⟨by decide, (claim_flags_populated envFix "tenant-1" tenant1 (by decide)).2.2⟩

/-! ## Claims about the authenticated request client -/

/-- C5: every outbound request is decorated by the request interceptor,
starting from the instance's base headers (no `Authorization`).  When an
access token is held — non-empty, matching the code's
`if (this.accessToken)` truthiness test — the request carries exactly
`Bearer <accessToken>`; when none is held (`null`, or the degenerate empty
string that JavaScript also treats as absent) the header is absent. -/
theorem claim_auth_header (env : Env) (inst : ApiClientInst) (st : LoaderState) :
    (∀ t, inst.accessToken = some t → t ≠ "" →
      (requestInterceptor env inst st baseHeaders).1.authorization =
        some ("Bearer " ++ t)) ∧
    (inst.accessToken = none →
      (requestInterceptor env inst st baseHeaders).1.authorization = none) ∧
    (inst.accessToken = some "" →
      (requestInterceptor env inst st baseHeaders).1.authorization = none) := by
  refine ⟨?_, ?_, ?_⟩
  · intro t ht hne
    simp [requestInterceptor, ht, hne]
  · intro h
    simp [requestInterceptor, h, baseHeaders]
  · intro h
    simp [requestInterceptor, h, baseHeaders]

/-- Witness for C5: a held token `"A1"` yields `Bearer A1`. -/
theorem claim_auth_header_witness :
    instFix.accessToken = some "A1" ∧
    (requestInterceptor envFix instFix none baseHeaders).1.authorization =
      some ("Bearer " ++ "A1") :=
  ⟨rfl, (claim_auth_header envFix instFix none).1 "A1" rfl (by decide)⟩

/-- C1: a request that receives HTTP 401 while a non-empty refresh token is
held and whose refresh succeeds produces exactly two transport attempts
(original and retry) and exactly one refresh call; the caller observes one
result: the retried attempt's outcome, returned directly — in particular a
failing retry (including another 401) triggers no second refresh. -/
theorem claim_retry_once (env : Env) (inst : ApiClientInst) (st : LoaderState)
    (url : String) (e1 : AxiosErrorModel) (o2 : AttemptOutcome)
    (rest : List AttemptOutcome) (rt t : String) (rr : RefreshResp)
    (h401 : e1.respStatus = some 401)
    (hheld : inst.refreshToken = some rt) (hne : rt ≠ "")
    (hok : rr = RefreshResp.ok (some t)) (ht : t ≠ "") :
    (get env inst st url (.err e1 :: o2 :: rest) rr).attempts.length = 2 ∧
    (get env inst st url (.err e1 :: o2 :: rest) rr).refreshCalls = 1 ∧
    (∀ s b, o2 = .ok s b →
      (get env inst st url (.err e1 :: o2 :: rest) rr).res =
        .ok { data := b, success := true }) ∧
    (∀ e2, o2 = .err e2 →
      (get env inst st url (.err e1 :: o2 :: rest) rr).res =
        .error (handleError (.apiErr (classifyError e2)))) := by
  have hr : refreshAccessToken inst rr = (some t, 1) :=
    refreshAccessToken_ok inst rr rt t hheld hne hok ht
  cases o2 with
  | ok s b =>
    refine ⟨?_, ?_, ?_, ?_⟩ <;>
      simp [get, runVerb, runClient, runClientFuel, hr, h401]
  | err e2 =>
    refine ⟨?_, ?_, ?_, ?_⟩ <;>
      simp [get, runVerb, runClient, runClientFuel, hr, h401]

/-- Witness for C1: the 401-then-success scenario with refresh `"A2"`. -/
theorem claim_retry_once_witness :
    (get envFix instFix (some tenant1) "/users/me"
      [.err err401Fix, .ok 200 (.str "me")] (.ok (some "A2"))).attempts.length = 2 ∧
    (get envFix instFix (some tenant1) "/users/me"
      [.err err401Fix, .ok 200 (.str "me")] (.ok (some "A2"))).refreshCalls = 1 ∧
    (get envFix instFix (some tenant1) "/users/me"
      [.err err401Fix, .ok 200 (.str "me")] (.ok (some "A2"))).res =
      .ok { data := .str "me", success := true } := by
  have h := claim_retry_once envFix instFix (some tenant1) "/users/me" err401Fix
    (.ok 200 (.str "me")) [] "R1" "A2" (.ok (some "A2"))
    (by decide) rfl (by decide) rfl (by decide)
  exact ⟨h.1, h.2.1, h.2.2.1 200 (.str "me") rfl⟩

/-- C4: when a 401-triggered refresh yields a new access token, only the
stored access token is replaced (the refresh token — and the bound
endpoint/timeout — are untouched), and the reissued original request carries
`Authorization: Bearer <new token>`. -/
theorem claim_refresh_replaces_access_only (env : Env) (inst : ApiClientInst)
    (st : LoaderState) (url : String) (e1 : AxiosErrorModel) (o2 : AttemptOutcome)
    (rest : List AttemptOutcome) (rt t : String) (rr : RefreshResp)
    (h401 : e1.respStatus = some 401)
    (hheld : inst.refreshToken = some rt) (hne : rt ≠ "")
    (hok : rr = RefreshResp.ok (some t)) (ht : t ≠ "") :
    (get env inst st url (.err e1 :: o2 :: rest) rr).inst =
      { inst with accessToken := some t } ∧
    ((get env inst st url (.err e1 :: o2 :: rest) rr).attempts.drop 1).map
      (fun a => a.headers.authorization) = [some ("Bearer " ++ t)] := by
  have hr : refreshAccessToken inst rr = (some t, 1) :=
    refreshAccessToken_ok inst rr rt t hheld hne hok ht
  cases o2 with
  | ok s b =>
    refine ⟨?_, ?_⟩ <;>
      simp [get, runVerb, runClient, runClientFuel, hr, h401,
        setAccessToken, requestInterceptor, ht]
  | err e2 =>
    refine ⟨?_, ?_⟩ <;>
      simp [get, runVerb, runClient, runClientFuel, hr, h401,
        setAccessToken, requestInterceptor, ht]

/-- Witness for C4: the spec scenario `A1`/`R1`, refresh returns `A2`: the
retried call carries `Bearer A2`, the stored access token is `A2` and the
stored refresh token is still `R1`. -/
theorem claim_refresh_replaces_access_only_witness :
    (get envFix instFix (some tenant1) "/users/me"
      [.err err401Fix, .ok 200 (.str "me")] (.ok (some "A2"))).inst.accessToken =
        some "A2" ∧
    (get envFix instFix (some tenant1) "/users/me"
      [.err err401Fix, .ok 200 (.str "me")] (.ok (some "A2"))).inst.refreshToken =
        some "R1" ∧
    ((get envFix instFix (some tenant1) "/users/me"
      [.err err401Fix, .ok 200 (.str "me")] (.ok (some "A2"))).attempts.drop 1).map
      (fun a => a.headers.authorization) = [some ("Bearer " ++ "A2")] := by
  have h := claim_refresh_replaces_access_only envFix instFix (some tenant1)
    "/users/me" err401Fix (.ok 200 (.str "me")) [] "R1" "A2" (.ok (some "A2"))
    (by decide) rfl (by decide) rfl (by decide)
  exact ⟨by rw [h.1], by rw [h.1]; rfl, h.2⟩

/-- C2 (evaluation at the failing input): a 401 whose refresh fails — and
likewise a 401 with no refresh token held — leaves both stored credentials
exactly as they were, because `refreshAccessToken` returns `null` instead of
rejecting, so the `catch` branch that calls `clearTokens()` never runs; a
subsequent call is still sent with the old `Authorization` header.  This
contradicts the claim that the credentials are cleared and later calls go
out unauthenticated. -/
theorem claim_tokens_survive_refresh_failure :
    (get envFix instFix (some tenant1) "/users/me" [.err err401Fix] .err).inst =
      instFix ∧
    (get envFix instNoRefreshFix (some tenant1) "/users/me"
      [.err err401Fix] .err).inst = instNoRefreshFix ∧
    (get envFix instFix (some tenant1) "/next" [.ok 200 (.str "v")] .err).attempts.map
      (fun a => a.headers.authorization) = [some "Bearer A1"] :=
  ⟨rfl, rfl, rfl⟩

/-- C3 (evaluation at the failing input): when the refresh of a 401 fails,
the interceptor chain rejects with the classification of the *original 401*
(`status = 401`, the original axios message) — not with an error describing
the refresh failure — and the public verb method then surfaces it as
`{message: 'Unknown error occurred'}`. -/
theorem claim_refresh_failure_error_is_original_401 :
    (runClient envFix instFix (some tenant1) "/users/me" baseHeaders false
      [.err err401Fix] .err).res = .error (classifyError err401Fix) ∧
    (classifyError err401Fix).status = some 401 ∧
    (classifyError err401Fix).message = "Request failed with status code 401" ∧
    (get envFix instFix (some tenant1) "/users/me" [.err err401Fix] .err).res =
      .error { message := "Unknown error occurred", code := none
               status := none, errors := none } :=
  ⟨rfl, rfl, rfl, rfl⟩

/-- C6 (evaluation at the failing input): on success the verb methods do
return `{data, success: true}` and a failing call never resolves — but the
raised error does not carry the upstream message, status or error list: the
response interceptor rejects with a plain object, which `handleError`
recognises as neither an `AxiosError` nor an `Error`, so a 500 whose body
holds `message: "boom"` and `errors: ["upstream detail"]` surfaces as
`{message: 'Unknown error occurred'}` with no status and no errors. -/
theorem claim_error_shape_eval :
    (get envFix instFix (some tenant1) "/x" [.ok 200 (.str "v")] .err).res =
      .ok { data := .str "v", success := true } ∧
    (get envFix instFix (some tenant1) "/x" [.err err500Fix] .err).res =
      .error { message := "Unknown error occurred", code := none
               status := none, errors := none } ∧
    handleError (.axiosErr err500Fix) =
      { message := "boom", code := some "ERR_BAD_RESPONSE"
        status := some 500, errors := some ["upstream detail"] } :=
  ⟨rfl, rfl, rfl⟩

/-- Invariant of the interceptor chain: the bound `baseURL`/`timeout` of the
client instance never change, every transport attempt is sent with them,
and every attempt's `X-Tenant-ID` header carries the id of the tenant
current at call time (the loader state the call started from). -/
theorem runClientFuel_frame (fuel : Nat) (env : Env) (inst : ApiClientInst)
    (st : LoaderState) (url : String) (h0 : Headers) (flag : Bool)
    (outcomes : List AttemptOutcome) (rr : RefreshResp) :
    (runClientFuel fuel env inst st url h0 flag outcomes rr).inst.baseURL =
      inst.baseURL ∧
    (runClientFuel fuel env inst st url h0 flag outcomes rr).inst.timeout =
      inst.timeout ∧
    ∀ a ∈ (runClientFuel fuel env inst st url h0 flag outcomes rr).attempts,
      a.baseURL = inst.baseURL ∧ a.timeout = inst.timeout ∧
      a.headers.xTenantId = some (getCurrentTenant env st).1.id := by
  induction fuel generalizing inst st h0 flag outcomes with
  | zero => simp [runClientFuel]
  | succ n ih =>
    cases outcomes with
    | nil =>
      simp [runClientFuel, exhaustedOutcome, requestInterceptor, getTenantConfig]
    | cons o rest =>
      cases o with
      | ok s b =>
        simp [runClientFuel, requestInterceptor, getTenantConfig]
      | err e =>
        by_cases hcond : e.respStatus = some 401 ∧ flag = false
        · rcases hr : refreshAccessToken inst rr with ⟨tok, n2⟩
          cases tok with
          | some t =>
            simp only [runClientFuel, List.headD_cons, List.tail_cons]
            rw [if_pos hcond, hr]
            have hrec := ih (setAccessToken inst t)
              (requestInterceptor env inst st h0).2
              { (requestInterceptor env inst st h0).1 with
                  authorization := some ("Bearer " ++ t) }
              true rest
            have hst : (requestInterceptor env inst st h0).2 =
                (getCurrentTenant env st).2 := rfl
            refine ⟨hrec.1, hrec.2.1, ?_⟩
            intro a ha
            have ha' : a =
                ({ url := url,
                   headers := (requestInterceptor env inst st h0).1,
                   retryFlag := flag, baseURL := inst.baseURL,
                   timeout := inst.timeout } : SentAttempt) ∨
                a ∈ (runClientFuel n env (setAccessToken inst t)
                  (requestInterceptor env inst st h0).2 url
                  { (requestInterceptor env inst st h0).1 with
                      authorization := some ("Bearer " ++ t) }
                  true rest rr).attempts := by
              simpa using ha
            rcases ha' with ha' | ha'
            · subst ha'
              exact ⟨rfl, rfl, rfl⟩
            · have h3 := hrec.2.2 a ha'
              refine ⟨h3.1, h3.2.1, ?_⟩
              rw [h3.2.2, hst, getCurrentTenant_idem]
          | none =>
            simp only [runClientFuel, List.headD_cons, List.tail_cons]
            rw [if_pos hcond, hr]
            simp [requestInterceptor, getTenantConfig]
        · simp only [runClientFuel, List.headD_cons, List.tail_cons]
          rw [if_neg hcond]
          simp [requestInterceptor, getTenantConfig]

/-- C7: the client's base endpoint and timeout are those of the tenant
current at construction time and never change afterward, while the
`X-Tenant-ID` header of each attempt carries the id of the tenant current
at the time of the call — after a tenant switch via `loadTenant`, requests
carry the new tenant's id but still target the originally bound endpoint. -/
theorem claim_static_endpoint_dynamic_header (env : Env) (st0 : LoaderState)
    (tid : Option String) (url : String) (outcomes : List AttemptOutcome)
    (rr : RefreshResp) :
    (mkApiClient env st0).1.baseURL = (getCurrentTenant env st0).1.api.baseUrl ∧
    (mkApiClient env st0).1.timeout = (getCurrentTenant env st0).1.api.timeout ∧
    (get env (mkApiClient env st0).1 (loadTenant env (mkApiClient env st0).2 tid).2
        url outcomes rr).inst.baseURL = (getCurrentTenant env st0).1.api.baseUrl ∧
    (get env (mkApiClient env st0).1 (loadTenant env (mkApiClient env st0).2 tid).2
        url outcomes rr).inst.timeout = (getCurrentTenant env st0).1.api.timeout ∧
    ∀ a ∈ (get env (mkApiClient env st0).1
        (loadTenant env (mkApiClient env st0).2 tid).2 url outcomes rr).attempts,
      a.baseURL = (getCurrentTenant env st0).1.api.baseUrl ∧
      a.timeout = (getCurrentTenant env st0).1.api.timeout ∧
      a.headers.xTenantId = some (loadTenant env (mkApiClient env st0).2 tid).1.id := by
  have hframe := runClientFuel_frame 2 env (mkApiClient env st0).1
    (loadTenant env (mkApiClient env st0).2 tid).2 url baseHeaders false outcomes rr
  have hbase : (mkApiClient env st0).1.baseURL =
      (getCurrentTenant env st0).1.api.baseUrl := rfl
  have htime : (mkApiClient env st0).1.timeout =
      (getCurrentTenant env st0).1.api.timeout := rfl
  have hcur : (getCurrentTenant env
      (loadTenant env (mkApiClient env st0).2 tid).2).1 =
      (loadTenant env (mkApiClient env st0).2 tid).1 := by
    rw [loadTenant_sets_current]
    rfl
  have hatt : (get env (mkApiClient env st0).1
      (loadTenant env (mkApiClient env st0).2 tid).2 url outcomes rr).attempts =
      (runClientFuel 2 env (mkApiClient env st0).1
        (loadTenant env (mkApiClient env st0).2 tid).2 url baseHeaders false
        outcomes rr).attempts := rfl
  have hinst : (get env (mkApiClient env st0).1
      (loadTenant env (mkApiClient env st0).2 tid).2 url outcomes rr).inst =
      (runClientFuel 2 env (mkApiClient env st0).1
        (loadTenant env (mkApiClient env st0).2 tid).2 url baseHeaders false
        outcomes rr).inst := rfl
  refine ⟨hbase, htime, ?_, ?_, ?_⟩
  · rw [hinst, hframe.1, hbase]
  · rw [hinst, hframe.2.1, htime]
  · intro a ha
    rw [hatt] at ha
    have h3 := hframe.2.2 a ha
    exact ⟨hbase ▸ h3.1, htime ▸ h3.2.1, by rw [h3.2.2, hcur]⟩

/-- Witness for C7: constructed while the default tenant is current, then
switched to `tenant-2`: the attempt targets the default endpoint with the
default timeout but tags `X-Tenant-ID: tenant-2`. -/
theorem claim_static_endpoint_dynamic_header_witness :
    (mkApiClient envFix none).1.baseURL = "https://api-dev.example.com" ∧
    { url := "/x"
      headers := { contentType := "application/json", accept := "application/json"
                   authorization := none, xTenantId := some "tenant-2" }
      retryFlag := false
      baseURL := "https://api-dev.example.com"
      timeout := 30000 : SentAttempt } ∈
      (get envFix (mkApiClient envFix none).1
        (loadTenant envFix (mkApiClient envFix none).2 (some "tenant-2")).2 "/x"
        [.ok 200 (.str "v")] .err).attempts ∧
    ({ url := "/x"
       headers := { contentType := "application/json", accept := "application/json"
                    authorization := none, xTenantId := some "tenant-2" }
       retryFlag := false
       baseURL := "https://api-dev.example.com"
       timeout := 30000 : SentAttempt }).headers.xTenantId = some "tenant-2" := by
  refine ⟨rfl, by decide, ?_⟩
  have h := (claim_static_endpoint_dynamic_header envFix none (some "tenant-2") "/x"
    [.ok 200 (.str "v")] .err).2.2.2.2
    { url := "/x"
      headers := { contentType := "application/json", accept := "application/json"
                   authorization := none, xTenantId := some "tenant-2" }
      retryFlag := false
      baseURL := "https://api-dev.example.com"
      timeout := 30000 } (by decide)
  rw [h.2.2]
  rfl

end RnTemplate
